import Mathlib

set_option maxRecDepth 200000

/-!
Shallow embedding of the climate-indicator aggregation pipeline of
`src/semester_project.py` (a pandas/streamlit dashboard script).

Dataframes are modelled as Lean lists; a daily record carries the fields
the pipeline derives from the CSV (`year`, `month` from the parsed date,
and the Celsius temperature as a rational).  pandas `groupby(key).agg`
with its default `sort=True` is modelled as mapping over the sorted list
of distinct keys; `merge(..., how="left")` as an association-list lookup
per left row; `fillna(0)` as `Option.getD 0` applied to every nullable
cell of the frame; `pivot(...).fillna(0)` as a row-per-year,
column-per-month matrix over the distinct years/months occurring in the
grouped data; `idxmax` as the first index attaining the maximum.
Floating-point NaN is modelled by `Option` (`none` = NaN).  The standard
deviation column is tracked as its square (the sample variance), which is
rational and hence executable; a value is NaN exactly when its square is,
so NaN bookkeeping is unaffected.
-/

namespace SemesterProject

/-- A daily record after loading: `df["year"]`, `df["month"]` (derived from
the parsed `date` column) and `df["temp_c"]`.  The constant `lat`/`lon`
columns play no role in any aggregate and are omitted. -/
structure DailyRecord where
  year : Int
  month : Nat
  temp : Rat
deriving DecidableEq, Repr

/-! ### Loader / column normalisation (lines 20–27 of the source) -/

/-- The Python substring test, on the character list level:
`hasPrefixL n h` is true when `n` starts `h`. -/
def hasPrefixL : List Char → List Char → Bool
  | [], _ => true
  | _ :: _, [] => false
  | n :: ns, h :: hs => n == h && hasPrefixL ns hs

/-- True when the needle occurs as a contiguous substring of the
haystack (Python `n in h` for strings). -/
def hasSubL (needle : List Char) : List Char → Bool
  | [] => hasPrefixL needle []
  | h :: hs => hasPrefixL needle (h :: hs) || hasSubL needle hs

/-- The test `"temp" in col` from line 25 of the source. -/
def containsTemp (col : String) : Bool :=
  hasSubL "temp".toList col.toList

/-- Line 20: `df.columns = df.columns.str.strip().str.lower()`. -/
def normalizeCols (cols : List String) : List String :=
  cols.map (fun c => c.trim.toLower)

/-- Lines 23–27: if no column is named exactly `temp_c`, scan the columns
in order and rename every column bearing the name of the first one that
contains `"temp"` to `temp_c` (that is what
`df.rename(columns={col: "temp_c"})` does), then stop. -/
def renameTemp (cols : List String) : List String :=
  if cols.contains "temp_c" then cols
  else
    match cols.find? containsTemp with
    | none => cols
    | some c0 => cols.map (fun c => if c == c0 then "temp_c" else c)

/-- Error kinds of the loading stage, using the names the design document
gives them.  In the script the schema failure surfaces as the pandas
`KeyError` raised by `df["temp_c"]` once no column was renamed, and the
date failure as the exception `pd.to_datetime` raises on an unparseable
value; both abort the run before any aggregate is produced. -/
inductive LoadError where
  | schemaError
  | dateParseError
deriving DecidableEq, Repr

/-- The column stage of the loader: normalise the header, apply the
`temp`-rename fallback, and fail (`KeyError` at line 39, `SchemaError` in
the design document) when the result still has no `temp_c` column. -/
def resolveColumns (cols : List String) : Except LoadError (List String) :=
  let n := renameTemp (normalizeCols cols)
  if n.contains "temp_c" then Except.ok n else Except.error LoadError.schemaError

/-- Line 34, `pd.to_datetime(df["date"])` with the default
`errors="raise"`: parse every date cell with the supplied parser; if any
single cell is unparseable the whole load fails, no row is skipped.  The
parser itself lives in the pandas library, so it is a parameter here; a
parsed date is reduced to the `(year, month)` pair the pipeline extracts
from it (lines 35–36). -/
def parseAllDates (parse : String → Option (Int × Nat)) (rows : List String) :
    Except LoadError (List (Int × Nat)) :=
  match rows.mapM parse with
  | some ds => Except.ok ds
  | none => Except.error LoadError.dateParseError

/-! ### Classified subsets (lines 39–40) -/

/-- Line 39: `comfortable = df[(df["temp_c"] >= 18) & (df["temp_c"] <= 25)]`. -/
def comfortable (df : List DailyRecord) : List DailyRecord :=
  df.filter (fun r => decide (18 ≤ r.temp ∧ r.temp ≤ 25))

/-- Line 40: `hot_days = df[df["temp_c"] > 35]`. -/
def hotDays (df : List DailyRecord) : List DailyRecord :=
  df.filter (fun r => decide (35 < r.temp))

/-! ### Grouping helpers -/

/-- The distinct years of a record list in ascending order: the group keys
produced by `groupby("year")` (pandas sorts group keys by default). -/
def sortedYears (df : List DailyRecord) : List Int :=
  ((df.map DailyRecord.year).dedup).insertionSort (· ≤ ·)

/-- The distinct months of a record list in ascending order. -/
def sortedMonths (df : List DailyRecord) : List Nat :=
  ((df.map DailyRecord.month).dedup).insertionSort (· ≤ ·)

/-- All records of year `y`. -/
def inYear (df : List DailyRecord) (y : Int) : List DailyRecord :=
  df.filter (fun r => r.year == y)

/-- Number of records of year `y` (the size of the `groupby("year")`
group, or `0` if the year is absent). -/
def countYear (df : List DailyRecord) (y : Int) : Nat :=
  (inYear df y).length

/-- Number of records of year `y` and month `m`. -/
def countYM (df : List DailyRecord) (y : Int) (m : Nat) : Nat :=
  ((inYear df y).filter (fun r => r.month == m)).length

/-- The temperatures of year `y`, in record order. -/
def yearTemps (df : List DailyRecord) (y : Int) : List Rat :=
  (inYear df y).map DailyRecord.temp

/-! ### Statistics and rounding -/

/-- The mean of a list of rationals (groups handed to `"mean"` are
nonempty, so the division is never by zero in the pipeline). -/
def mean (l : List Rat) : Rat :=
  l.sum / l.length

/-- The square of the pandas `"std"` aggregate: the sample variance
(`ddof = 1`).  A one-element group divides by zero and yields NaN
(`none`); groups are never empty in a `groupby`. -/
def sampleVar (l : List Rat) : Option Rat :=
  if l.length ≤ 1 then none
  else some (((l.map (fun x => (x - mean l) ^ 2)).sum) / ((l.length : Rat) - 1))

/-- Floor of a rational as an integer, via floor division of the
numerator by the denominator. -/
def ratFloor (q : Rat) : Int :=
  Int.fdiv q.num q.den

/-- Round a rational to the nearest integer, ties to the even integer:
the rounding of numpy/pandas `.round`. -/
def roundHalfEven (q : Rat) : Int :=
  let f := ratFloor q
  let frac := q - (f : Rat)
  if frac < 1 / 2 then f
  else if 1 / 2 < frac then f + 1
  else if f % 2 = 0 then f else f + 1

/-- pandas `Series.round(d)`: round to `d` decimal places (half to even). -/
def roundTo (d : Nat) (q : Rat) : Rat :=
  (roundHalfEven (q * 10 ^ d) : Rat) / 10 ^ d

/-! ### Yearly aggregates (lines 43–73) -/

/-- Lines 43–50, `yearly_stats`: one row per year of `df`, with the mean
temperature and the (squared) sample standard deviation of that year. -/
def yearlyStats (df : List DailyRecord) : List (Int × Rat × Option Rat) :=
  (sortedYears df).map (fun y => (y, mean (yearTemps df y), sampleVar (yearTemps df y)))

/-- Lines 52–56, `yearly_comfort`: `comfortable.groupby("year").size()`,
one `(year, comfortable_days)` row per year with a comfortable day. -/
def yearlyComfort (df : List DailyRecord) : List (Int × Nat) :=
  (sortedYears (comfortable df)).map (fun y => (y, countYear (comfortable df) y))

/-- Lines 58–62, `yearly_hot`: `hot_days.groupby("year").size()`. -/
def yearlyHot (df : List DailyRecord) : List (Int × Nat) :=
  (sortedYears (hotDays df)).map (fun y => (y, countYear (hotDays df) y))

/-- Lookup in a keyed row list: the cell a left merge on `year` places in
the row of key `y` (`none` = no matching right row, i.e. NaN). -/
def lookupKey (t : List (Int × α)) (y : Int) : Option α :=
  (t.find? (fun p => p.1 == y)).map (fun p => p.2)

/-- One row of the final `yearly` dataframe (after lines 65–73). -/
structure YearlyRow where
  year : Int
  /-- Column `avg_temp_c`, rounded to 2 decimals at line 72. -/
  avg_temp : Rat
  /-- The square of `temp_std`.  Here `none` would be NaN, but the
  `fillna(0)` at line 71 has already replaced NaN by 0 in every cell. -/
  temp_var : Option Rat
  comfortable_days : Nat
  hot_days : Nat
  /-- Column `comfort_ratio`, line 73. -/
  comfort_ratio : Rat
deriving DecidableEq, Repr

/-- Lines 65–73: left-merge `yearly_stats` with `yearly_comfort` and
`yearly_hot` on `year`, `fillna(0)` on the whole frame (which also turns
a NaN standard deviation into 0), round the mean to 2 decimals, and
derive `comfort_ratio = (comfortable_days / 365 * 100).round(1)`. -/
def yearly (df : List DailyRecord) : List YearlyRow :=
  (yearlyStats df).map (fun row =>
    let c0 : Nat := (lookupKey (yearlyComfort df) row.1).getD 0
    let h0 : Nat := (lookupKey (yearlyHot df) row.1).getD 0
    { year := row.1
      avg_temp := roundTo 2 row.2.1
      temp_var := some (row.2.2.getD 0)
      comfortable_days := c0
      hot_days := h0
      comfort_ratio := roundTo 1 ((c0 : Rat) / 365 * 100) })

/-! ### Monthly aggregates, heatmap, top months (lines 139–179) -/

/-- The months of year `y` having at least one record in `sub`, ascending:
the second grouping level of `sub.groupby(["year", "month"])`. -/
def monthsOfYear (sub : List DailyRecord) (y : Int) : List Nat :=
  sortedMonths (inYear sub y)

/-- Lines 139–143 (and identically lines 163–167): `(year, month, count)`
rows of `comfortable.groupby(["year", "month"]).size()`, sorted
lexicographically by pandas. -/
def monthlyComfort (df : List DailyRecord) : List (Int × Nat × Nat) :=
  (sortedYears (comfortable df)).flatMap (fun y =>
    (monthsOfYear (comfortable df) y).map (fun m => (y, m, countYM (comfortable df) y m)))

/-- Lines 145–149: `monthly_comfort.pivot(index="year", columns="month",
values="count").fillna(0)`.  Rows are the distinct years of the grouped
data, columns its distinct months; a `(year, month)` combination with no
grouped row is NaN, then zero-filled. -/
def heatmapData (df : List DailyRecord) : List (Int × List (Nat × Nat)) :=
  (sortedYears (comfortable df)).map (fun y =>
    (y, (sortedMonths (comfortable df)).map (fun m =>
      (m, countYM (comfortable df) y m))))

/-- Reading a cell of the pivoted matrix: `none` when the matrix has no
row for `y` or no column for `m`. -/
def getCell (h : List (Int × List (Nat × Nat))) (y : Int) (m : Nat) : Option Nat :=
  match h.find? (fun row => row.1 == y) with
  | none => none
  | some row => (row.2.find? (fun c => c.1 == m)).map (fun c => c.2)

/-- The pandas `Series.idxmax` over the rows of one `groupby("year")` group, rows in
frame order: the first row attaining the maximum of the second
component. -/
def idxmaxRow : List (Nat × Nat) → Option (Nat × Nat)
  | [] => none
  | p :: ps =>
    match idxmaxRow ps with
    | none => some p
    | some q => if q.2 ≤ p.2 then some p else some q

/-- The lookup `calendar.month_name[x]` (index 0 is the empty string). -/
def monthName (m : Nat) : String :=
  (["", "January", "February", "March", "April", "May", "June", "July",
    "August", "September", "October", "November", "December"]).getD m ""

/-- Lines 163–171: take `monthly_counts` (the same grouped frame as
`monthly_comfort`), per year the row at
`monthly_counts.groupby("year")["monthly_days"].idxmax()`, and attach the
month name.  One row per year with at least one comfortable day. -/
def topMonths (df : List DailyRecord) : List (Int × String × Nat × Nat) :=
  (sortedYears (comfortable df)).filterMap (fun y =>
    (idxmaxRow ((monthsOfYear (comfortable df) y).map (fun m =>
        (m, countYM (comfortable df) y m)))).map (fun p =>
      (y, monthName p.1, p.1, p.2)))

/-- One row of `summary_table` (lines 173–179): the `yearly` columns plus
the left-merged `month_name` and `monthly_days`, which are NaN (`none`)
for a year absent from `top_months`.  No `fillna` follows this merge. -/
structure SummaryRow where
  year : Int
  avg_temp : Rat
  temp_var : Option Rat
  comfortable_days : Nat
  hot_days : Nat
  comfort_ratio : Rat
  month_name : Option String
  monthly_days : Option Nat
deriving DecidableEq, Repr

/-- Lines 173–179: `yearly.merge(top_months[["year", "month_name",
"monthly_days"]], on="year", how="left")`. -/
def summaryTable (df : List DailyRecord) : List SummaryRow :=
  (yearly df).map (fun r =>
    let t := lookupKey ((topMonths df).map (fun p => (p.1, p.2))) r.year
    { year := r.year
      avg_temp := r.avg_temp
      temp_var := r.temp_var
      comfortable_days := r.comfortable_days
      hot_days := r.hot_days
      comfort_ratio := r.comfort_ratio
      month_name := t.map (fun p => p.1)
      monthly_days := t.map (fun p => p.2.2) })

/-- The row the final `yearly` frame carries for year `y` (unfolding the
merge-lookup cells); `yearly df` is the map of this over the sorted
years. -/
def yearlyRowOf (df : List DailyRecord) (y : Int) : YearlyRow :=
  { year := y
    avg_temp := roundTo 2 (mean (yearTemps df y))
    temp_var := some ((sampleVar (yearTemps df y)).getD 0)
    comfortable_days := (lookupKey (yearlyComfort df) y).getD 0
    hot_days := (lookupKey (yearlyHot df) y).getD 0
    comfort_ratio :=
      roundTo 1 ((((lookupKey (yearlyComfort df) y).getD 0 : Nat) : Rat) / 365 * 100) }

/-! ### Concrete datasets used to instantiate the theorems -/

/-- The three-record scenario from the design document: year 2000,
temperatures 20, 36 and 15 °C, all in January. -/
def exScenario : List DailyRecord := [⟨2000, 1, 20⟩, ⟨2000, 1, 36⟩, ⟨2000, 1, 15⟩]

/-- One comfortable day in each of months 1 and 3 of year 2000 (a tie for
the top month, and no comfortable day in month 2). -/
def exTwoMonths : List DailyRecord := [⟨2000, 1, 20⟩, ⟨2000, 3, 21⟩]

/-- A single daily record: the sample standard deviation of its year is NaN
before the frame-wide `fillna(0)`. -/
def exSingle : List DailyRecord := [⟨2000, 1, 20⟩]

/-- Year 2000 has one comfortable day; year 2001 has none (its only day
is above 35 °C). -/
def exNoComfort : List DailyRecord := [⟨2000, 1, 20⟩, ⟨2001, 1, 40⟩]

/-- The `yearly` row computed for `exScenario` (mean 23.67, variance
361/3, one comfortable and one hot day, comfort ratio 0.3 %). -/
def exRowScenario : YearlyRow :=
  { year := 2000
    avg_temp := 2367 / 100
    temp_var := some (361 / 3)
    comfortable_days := 1
    hot_days := 1
    comfort_ratio := 3 / 10 }

/-- The `summary_table` row computed for year 2001 of `exNoComfort`:
no comfortable day, so the merged month fields are NaN (`none`). -/
def exRow2001 : SummaryRow :=
  { year := 2001
    avg_temp := 40
    temp_var := some 0
    comfortable_days := 0
    hot_days := 1
    comfort_ratio := 0
    month_name := none
    monthly_days := none }

/-- A concrete stand-in for the external date parser: it fails on the
cell `"bad"` and parses anything else as January 2000. -/
def exParse : String → Option (Int × Nat) :=
  fun s => if s == "bad" then none else some (2000, 1)

end SemesterProject

namespace SemesterProject

/-! ### General list helpers -/

lemma sum_map_add {α : Type} (l : List α) (f g : α → Nat) :
    (l.map (fun x => f x + g x)).sum = (l.map f).sum + (l.map g).sum := by
  induction l with
  | nil => simp
  | cons x xs ih => simp [ih]; omega

lemma sum_indicator {κ : Type} [BEq κ] [LawfulBEq κ] (M : List κ) (hM : M.Nodup)
    (a : κ) (ha : a ∈ M) :
    (M.map (fun m => if a == m then 1 else 0)).sum = 1 := by
  induction M with
  | nil => cases ha
  | cons m ms ih =>
    rcases List.mem_cons.mp ha with rfl | hm
    · have hnot : ∀ x ∈ ms, (if a == x then 1 else 0) = 0 := by
        intro x hx
        have : a ≠ x := fun h => (List.nodup_cons.mp hM).1 (h ▸ hx)
        simp [this]
      simp [List.map_congr_left hnot]
    · have hne : ¬(a == m) = true := by
        intro h
        exact (List.nodup_cons.mp hM).1 ((eq_of_beq h) ▸ hm)
      simp only [List.map_cons, List.sum_cons, if_neg hne]
      rw [ih (List.nodup_cons.mp hM).2 hm]

lemma length_filter_beq_eq_one {κ : Type} [BEq κ] [LawfulBEq κ] (K : List κ)
    (hK : K.Nodup) (y : κ) (hy : y ∈ K) :
    (K.filter (fun k => k == y)).length = 1 := by
  induction K with
  | nil => cases hy
  | cons k ks ih =>
    rcases List.mem_cons.mp hy with rfl | hm
    · have hks : ks.filter (fun x => x == y) = [] := by
        rw [List.filter_eq_nil_iff]
        intro x hx h
        exact (List.nodup_cons.mp hK).1 ((eq_of_beq h) ▸ hx)
      simp [List.filter_cons, hks]
    · have hne : ¬(k == y) = true := by
        intro h
        exact (List.nodup_cons.mp hK).1 ((eq_of_beq h) ▸ hm)
      simp only [List.filter_cons, if_neg hne]
      exact ih (List.nodup_cons.mp hK).2 hm

lemma find?_keyed {κ β : Type} [BEq κ] [LawfulBEq κ] (K : List κ) (f : κ → β) (y : κ)
    (hK : K.Nodup) (hy : y ∈ K) :
    (K.map (fun k => (k, f k))).find? (fun p => p.1 == y) = some (y, f y) := by
  induction K with
  | nil => cases hy
  | cons k ks ih =>
    rcases List.mem_cons.mp hy with rfl | hm
    · simp [List.find?_cons_of_pos]
    · by_cases hk : k = y
      · exact absurd (hk ▸ hm) (List.nodup_cons.mp hK).1
      · have : ((k, f k).1 == y) = false := by simp [hk]
        simp only [List.map_cons]
        rw [List.find?_cons_of_neg _ (by simp [hk])]
        exact ih (List.nodup_cons.mp hK).2 hm

lemma find?_keyed_none {κ β : Type} [BEq κ] [LawfulBEq κ] (K : List κ) (f : κ → β) (y : κ)
    (hy : y ∉ K) :
    (K.map (fun k => (k, f k))).find? (fun p => p.1 == y) = none := by
  rw [List.find?_eq_none]
  intro p hp
  obtain ⟨k, hk, rfl⟩ := List.mem_map.mp hp
  simp only [beq_iff_eq]
  exact fun h => hy (h ▸ hk)

/-! ### Sorted-key lemmas -/

lemma mem_sortedYears {df : List DailyRecord} {y : Int} :
    y ∈ sortedYears df ↔ y ∈ df.map DailyRecord.year := by
  unfold sortedYears
  rw [(List.perm_insertionSort _ _).mem_iff, List.mem_dedup]

lemma nodup_sortedYears (df : List DailyRecord) : (sortedYears df).Nodup := by
  unfold sortedYears
  exact ((List.perm_insertionSort _ _).nodup_iff).mpr (List.nodup_dedup _)

lemma mem_sortedMonths {df : List DailyRecord} {m : Nat} :
    m ∈ sortedMonths df ↔ m ∈ df.map DailyRecord.month := by
  unfold sortedMonths
  rw [(List.perm_insertionSort _ _).mem_iff, List.mem_dedup]

lemma nodup_sortedMonths (df : List DailyRecord) : (sortedMonths df).Nodup := by
  unfold sortedMonths
  exact ((List.perm_insertionSort _ _).nodup_iff).mpr (List.nodup_dedup _)

lemma sorted_lt_sortedMonths (df : List DailyRecord) :
    (sortedMonths df).Sorted (· < ·) :=
  (List.sorted_insertionSort _ _).lt_of_le (nodup_sortedMonths df)

/-! ### Counting lemmas -/

lemma countYear_eq_zero {df : List DailyRecord} {y : Int}
    (h : y ∉ df.map DailyRecord.year) : countYear df y = 0 := by
  unfold countYear inYear
  rw [List.length_eq_zero, List.filter_eq_nil_iff]
  intro r hr hry
  exact h (List.mem_map.mpr ⟨r, hr, eq_of_beq hry⟩)

lemma countYear_pos {df : List DailyRecord} {y : Int}
    (h : y ∈ df.map DailyRecord.year) : 0 < countYear df y := by
  obtain ⟨r, hr, rfl⟩ := List.mem_map.mp h
  unfold countYear inYear
  exact List.length_pos.mpr (List.ne_nil_of_mem (List.mem_filter.mpr ⟨hr, by simp⟩))

lemma countYM_eq_zero {df : List DailyRecord} {y : Int} {m : Nat}
    (h : m ∉ (inYear df y).map DailyRecord.month) : countYM df y m = 0 := by
  unfold countYM
  rw [List.length_eq_zero, List.filter_eq_nil_iff]
  intro r hr hrm
  exact h (List.mem_map.mpr ⟨r, hr, eq_of_beq hrm⟩)

lemma countYM_pos {df : List DailyRecord} {y : Int} {m : Nat}
    (h : m ∈ (inYear df y).map DailyRecord.month) : 0 < countYM df y m := by
  obtain ⟨r, hr, rfl⟩ := List.mem_map.mp h
  unfold countYM
  exact List.length_pos.mpr (List.ne_nil_of_mem (List.mem_filter.mpr ⟨hr, by simp⟩))

lemma countYear_filter_le (df : List DailyRecord) (p : DailyRecord → Bool) (y : Int) :
    countYear (df.filter p) y ≤ countYear df y := by
  unfold countYear inYear
  rw [List.filter_comm]
  exact List.length_filter_le _ _

/-! ### The `yearly` frame as a map over its sorted years -/

lemma yearly_eq_map (df : List DailyRecord) :
    yearly df = (sortedYears df).map (yearlyRowOf df) := by
  unfold yearly yearlyStats yearlyRowOf
  rw [List.map_map]
  rfl

lemma mem_yearly {df : List DailyRecord} {r : YearlyRow} (hr : r ∈ yearly df) :
    ∃ y ∈ sortedYears df, yearlyRowOf df y = r := by
  rw [yearly_eq_map] at hr
  exact List.mem_map.mp hr

lemma comfortable_days_eq (df : List DailyRecord) (y : Int) :
    (lookupKey (yearlyComfort df) y).getD 0 = countYear (comfortable df) y := by
  by_cases hy : y ∈ sortedYears (comfortable df)
  · unfold yearlyComfort lookupKey
    rw [find?_keyed _ _ _ (nodup_sortedYears _) hy]
    rfl
  · unfold yearlyComfort lookupKey
    rw [find?_keyed_none _ _ _ hy]
    rw [countYear_eq_zero (fun h => hy (mem_sortedYears.mpr h))]
    rfl

/-! ### The grouped monthly frame -/

lemma filter_flatMap_keyed {β : Type} (K : List Int) (g : Int → List β) (y : Int)
    (hK : K.Nodup) :
    ((K.flatMap (fun k => (g k).map (Prod.mk k))).filter (fun t => t.1 == y))
      = if y ∈ K then (g y).map (Prod.mk y) else [] := by
  induction K with
  | nil => simp
  | cons k ks ih =>
    rw [List.flatMap_cons, List.filter_append, ih (List.nodup_cons.mp hK).2]
    by_cases hk : k = y
    · subst hk
      have hblock : ((g k).map (Prod.mk k)).filter (fun t => t.1 == k)
          = (g k).map (Prod.mk k) := by
        rw [List.filter_eq_self]
        intro t ht
        obtain ⟨b, _, rfl⟩ := List.mem_map.mp ht
        simp
      have hks : k ∉ ks := (List.nodup_cons.mp hK).1
      rw [hblock, if_neg hks, if_pos (List.mem_cons_self k ks), List.append_nil]
    · have hblock : ((g k).map (Prod.mk k)).filter (fun t => t.1 == y) = [] := by
        rw [List.filter_eq_nil_iff]
        intro t ht
        obtain ⟨b, _, rfl⟩ := List.mem_map.mp ht
        simp [hk]
      rw [hblock, List.nil_append]
      by_cases hky : y ∈ ks
      · rw [if_pos hky, if_pos (List.mem_cons_of_mem _ hky)]
      · rw [if_neg hky,
          if_neg (by simp only [List.mem_cons, not_or]; exact ⟨fun h => hk h.symm, hky⟩)]

lemma monthlyComfort_eq (df : List DailyRecord) :
    monthlyComfort df
      = (sortedYears (comfortable df)).flatMap (fun k =>
          (((monthsOfYear (comfortable df) k).map
            (fun m => (m, countYM (comfortable df) k m))).map (Prod.mk k))) := by
  unfold monthlyComfort
  congr 1
  funext k
  rw [List.map_map]
  rfl

lemma monthlyComfort_filter_eq (df : List DailyRecord) (y : Int) :
    (monthlyComfort df).filter (fun t => t.1 == y)
      = if y ∈ sortedYears (comfortable df) then
          ((monthsOfYear (comfortable df) y).map
            (fun m => (m, countYM (comfortable df) y m))).map (Prod.mk y)
        else [] := by
  rw [monthlyComfort_eq]
  exact filter_flatMap_keyed _ _ _ (nodup_sortedYears _)

lemma sum_length_filter_month (l : List DailyRecord) (M : List Nat) (hM : M.Nodup)
    (hcov : ∀ r ∈ l, r.month ∈ M) :
    (M.map (fun m => (l.filter (fun r => r.month == m)).length)).sum = l.length := by
  induction l with
  | nil => simp
  | cons r l ih =>
    have hcov' : ∀ x ∈ l, x.month ∈ M := fun x hx => hcov x (List.mem_cons_of_mem _ hx)
    have hstep : ∀ m : Nat, ((r :: l).filter (fun x => x.month == m)).length
        = (if r.month == m then 1 else 0) + (l.filter (fun x => x.month == m)).length := by
      intro m
      by_cases h : r.month = m
      · simp [List.filter_cons, h]
        omega
      · simp [List.filter_cons, h]
    have hmap : M.map (fun m => ((r :: l).filter (fun x => x.month == m)).length)
        = M.map (fun m =>
            (if r.month == m then 1 else 0) + (l.filter (fun x => x.month == m)).length) :=
      List.map_congr_left (fun m _ => hstep m)
    rw [hmap, sum_map_add, sum_indicator M hM r.month (hcov r (List.mem_cons_self r l)),
      ih hcov']
    simp only [List.length_cons]
    omega

lemma sum_countYM (sub : List DailyRecord) (y : Int) :
    ((monthsOfYear sub y).map (fun m => countYM sub y m)).sum = countYear sub y := by
  unfold countYM countYear monthsOfYear
  exact sum_length_filter_month _ _ (nodup_sortedMonths _)
    (fun r hr => mem_sortedMonths.mpr (List.mem_map.mpr ⟨r, hr, rfl⟩))

/-! ### `idxmax` -/

lemma idxmaxRow_cons (p : Nat × Nat) (ps : List (Nat × Nat)) :
    idxmaxRow (p :: ps) = match idxmaxRow ps with
      | none => some p
      | some q => if q.2 ≤ p.2 then some p else some q := rfl

lemma idxmaxRow_spec (ps : List (Nat × Nat)) (hps : ps.Sorted (fun a b => a.1 < b.1))
    (hne : ps ≠ []) :
    ∃ p, idxmaxRow ps = some p ∧ p ∈ ps ∧ (∀ q ∈ ps, q.2 ≤ p.2) ∧
      (∀ q ∈ ps, q.2 = p.2 → p.1 ≤ q.1) := by
  induction ps with
  | nil => exact absurd rfl hne
  | cons p ps ih =>
    cases ps with
    | nil =>
      refine ⟨p, by simp [idxmaxRow], List.mem_singleton_self p, ?_, ?_⟩
      · intro q hq; rw [List.mem_singleton.mp hq]
      · intro q hq _; rw [List.mem_singleton.mp hq]
    | cons p' ps' =>
      obtain ⟨q, hq_eq, hq_mem, hq_max, hq_tie⟩ :=
        ih (List.Sorted.of_cons hps) (List.cons_ne_nil p' ps')
      have hhead : ∀ r ∈ p' :: ps', p.1 < r.1 := (List.pairwise_cons.mp hps).1
      by_cases hle : q.2 ≤ p.2
      · refine ⟨p, ?_, List.mem_cons_self _ _, ?_, ?_⟩
        · rw [idxmaxRow_cons, hq_eq]
          simp [hle]
        · intro r hr
          rcases List.mem_cons.mp hr with rfl | hr'
          · exact le_refl _
          · exact le_trans (hq_max r hr') hle
        · intro r hr _
          rcases List.mem_cons.mp hr with rfl | hr'
          · exact le_refl _
          · exact le_of_lt (hhead r hr')
      · refine ⟨q, ?_, List.mem_cons_of_mem _ hq_mem, ?_, ?_⟩
        · rw [idxmaxRow_cons, hq_eq]
          simp [hle]
        · intro r hr
          rcases List.mem_cons.mp hr with rfl | hr'
          · exact le_of_lt (Nat.lt_of_not_le hle)
          · exact hq_max r hr'
        · intro r hr hr2
          rcases List.mem_cons.mp hr with rfl | hr'
          · exact absurd (le_of_eq hr2.symm) hle
          · exact hq_tie r hr' hr2

lemma hot_days_eq (df : List DailyRecord) (y : Int) :
    (lookupKey (yearlyHot df) y).getD 0 = countYear (hotDays df) y := by
  by_cases hy : y ∈ sortedYears (hotDays df)
  · unfold yearlyHot lookupKey
    rw [find?_keyed _ _ _ (nodup_sortedYears _) hy]
    rfl
  · unfold yearlyHot lookupKey
    rw [find?_keyed_none _ _ _ hy]
    rw [countYear_eq_zero (fun h => hy (mem_sortedYears.mpr h))]
    rfl

/-! ### Remaining plumbing -/

lemma getCell_find_some {h : List (Int × List (Nat × Nat))} {y a : Int}
    {cols : List (Nat × Nat)}
    (hf : h.find? (fun r => r.1 == y) = some (a, cols)) (m : Nat) :
    getCell h y m = (cols.find? (fun c => c.1 == m)).map (fun c => c.2) := by
  unfold getCell
  rw [hf]

lemma topMonths_key_mem {df : List DailyRecord} {t : Int × String × Nat × Nat}
    (ht : t ∈ topMonths df) : t.1 ∈ sortedYears (comfortable df) := by
  unfold topMonths at ht
  obtain ⟨k, hk, hfk⟩ := List.mem_filterMap.mp ht
  cases hopt : idxmaxRow ((monthsOfYear (comfortable df) k).map
      (fun m => (m, countYM (comfortable df) k m))) with
  | none => rw [hopt] at hfk; cases hfk
  | some p =>
    rw [hopt, Option.map_some'] at hfk
    cases hfk
    exact hk

lemma mapM_option_none {α β : Type} (f : α → Option β) (l : List α) (a : α)
    (ha : a ∈ l) (h : f a = none) : l.mapM f = none := by
  rw [← List.mapM'_eq_mapM]
  induction l with
  | nil => cases ha
  | cons x xs ih =>
    rcases List.mem_cons.mp ha with rfl | hm
    · simp [List.mapM', h]
    · cases hfx : f x <;> simp [List.mapM', hfx, ih hm]

lemma mapM_option_length {α β : Type} (f : α → Option β) (l : List α) (out : List β)
    (h : l.mapM f = some out) : out.length = l.length := by
  rw [← List.mapM'_eq_mapM] at h
  induction l generalizing out with
  | nil => simp [List.mapM'] at h; simp [← h]
  | cons x xs ih =>
    cases hfx : f x with
    | none => simp [List.mapM', hfx] at h
    | some b =>
      cases hxs : List.mapM' f xs with
      | none => simp [List.mapM', hfx, hxs] at h
      | some ys =>
        simp [List.mapM', hfx, hxs] at h
        simp [← h, ih ys hxs]

lemma contains_eq_false_of_not_mem {l : List String} {a : String} (h : a ∉ l) :
    l.contains a = false := by
  simpa using h

lemma countP_congr_mem {α : Type} {l : List α} {p q : α → Bool}
    (h : ∀ a ∈ l, p a = q a) : l.countP p = l.countP q := by
  induction l with
  | nil => rfl
  | cons x xs ih =>
    rw [List.countP_cons, List.countP_cons, h x (List.mem_cons_self x xs),
      ih (fun a ha => h a (List.mem_cons_of_mem _ ha))]

end SemesterProject

namespace SemesterProject

/-!
## The claims

Each claim of the specification is settled by one theorem below (with a
counterexample theorem where the claim, as stated, fails on the code).
-/

/-- C1: for every year present in the full daily-record set, the yearly
aggregate has exactly one row for that year; its comfortable-day count is
the number of records of that year with temperature in [18, 25] and its
hot-day count the number with temperature > 35 (zero-filled years
included, never omitted), and each count is at most the number of daily
records of the year (and at least 0, trivially, being a `Nat`). -/
theorem claim1_yearly_rows (df : List DailyRecord) (y : Int)
    (hy : y ∈ df.map DailyRecord.year) :
    ((yearly df).filter (fun r => r.year == y)).length = 1 ∧
    ∀ r ∈ yearly df, r.year = y →
      r.comfortable_days = countYear (comfortable df) y ∧
      r.hot_days = countYear (hotDays df) y ∧
      r.comfortable_days ≤ countYear df y ∧
      r.hot_days ≤ countYear df y := by
  constructor
  · rw [yearly_eq_map, List.filter_map _ _]
    have hcomp : ((fun r : YearlyRow => r.year == y) ∘ yearlyRowOf df)
        = fun k => k == y := rfl
    rw [hcomp, List.length_map]
    exact length_filter_beq_eq_one _ (nodup_sortedYears df) y (mem_sortedYears.mpr hy)
  · intro r hr hry
    obtain ⟨k, hk, rfl⟩ := mem_yearly hr
    have hky : k = y := hry
    subst hky
    exact ⟨comfortable_days_eq df k, hot_days_eq df k,
      le_trans (le_of_eq (comfortable_days_eq df k)) (countYear_filter_le df _ k),
      le_trans (le_of_eq (hot_days_eq df k)) (countYear_filter_le df _ k)⟩

/-- Witness for C1 at the three-record scenario dataset. -/
theorem claim1_yearly_rows_witness :
    ((2000 : Int) ∈ exScenario.map DailyRecord.year) ∧
    (((yearly exScenario).filter (fun r => r.year == 2000)).length = 1 ∧
    ∀ r ∈ yearly exScenario, r.year = 2000 →
      r.comfortable_days = countYear (comfortable exScenario) 2000 ∧
      r.hot_days = countYear (hotDays exScenario) 2000 ∧
      r.comfortable_days ≤ countYear exScenario 2000 ∧
      r.hot_days ≤ countYear exScenario 2000) :=
  ⟨by decide, claim1_yearly_rows exScenario 2000 (by decide)⟩

/-- C2: for every row of the yearly aggregate, the monthly
comfortable-day counts of the year of that row sum to its yearly
comfortable-day count. -/
theorem claim2_monthly_sum (df : List DailyRecord) (r : YearlyRow)
    (hr : r ∈ yearly df) :
    (((monthlyComfort df).filter (fun t => t.1 == r.year)).map (fun t => t.2.2)).sum
      = r.comfortable_days := by
  obtain ⟨y, hy, rfl⟩ := mem_yearly hr
  show (((monthlyComfort df).filter (fun t => t.1 == y)).map (fun t => t.2.2)).sum
      = (lookupKey (yearlyComfort df) y).getD 0
  rw [comfortable_days_eq df y, monthlyComfort_filter_eq]
  by_cases hyc : y ∈ sortedYears (comfortable df)
  · rw [if_pos hyc, List.map_map, List.map_map]
    exact sum_countYM (comfortable df) y
  · rw [if_neg hyc]
    simp only [List.map_nil, List.sum_nil]
    exact (countYear_eq_zero (fun h => hyc (mem_sortedYears.mpr h))).symm

/-- Witness for C2 at the three-record scenario dataset. -/
theorem claim2_monthly_sum_witness :
    (exRowScenario ∈ yearly exScenario) ∧
    (((monthlyComfort exScenario).filter
        (fun t => t.1 == exRowScenario.year)).map (fun t => t.2.2)).sum
      = exRowScenario.comfortable_days :=
  ⟨by with_unfolding_all decide,
   claim2_monthly_sum exScenario exRowScenario (by with_unfolding_all decide)⟩

/-- C7: for every row of the yearly aggregate, the comfort ratio is the
comfortable-day count divided by the fixed denominator 365, times 100,
rounded to one decimal place; the mean is the true mean of the year rounded to
two decimal places; and the stored count itself is the exact count—the
rounded values feed no further computation. -/
theorem claim7_rounding (df : List DailyRecord) (r : YearlyRow)
    (hr : r ∈ yearly df) :
    r.comfort_ratio = roundTo 1 ((countYear (comfortable df) r.year : Rat) / 365 * 100) ∧
    r.avg_temp = roundTo 2 (mean (yearTemps df r.year)) ∧
    r.comfortable_days = countYear (comfortable df) r.year := by
  obtain ⟨y, hy, rfl⟩ := mem_yearly hr
  refine ⟨?_, rfl, comfortable_days_eq df y⟩
  show roundTo 1 ((((lookupKey (yearlyComfort df) y).getD 0 : Nat) : Rat) / 365 * 100)
      = roundTo 1 ((countYear (comfortable df) y : Rat) / 365 * 100)
  rw [comfortable_days_eq df y]

/-- Witness for C7 at the three-record scenario dataset. -/
theorem claim7_rounding_witness :
    (exRowScenario ∈ yearly exScenario) ∧
    (exRowScenario.comfort_ratio
        = roundTo 1 ((countYear (comfortable exScenario) exRowScenario.year : Rat)
            / 365 * 100) ∧
    exRowScenario.avg_temp = roundTo 2 (mean (yearTemps exScenario exRowScenario.year)) ∧
    exRowScenario.comfortable_days = countYear (comfortable exScenario) exRowScenario.year) :=
  ⟨by with_unfolding_all decide,
   claim7_rounding exScenario exRowScenario (by with_unfolding_all decide)⟩

/-- C3: for every year with at least one comfortable day, `top_months`
carries a row for that year whose month attains the maximum monthly
comfortable-day count of the year, and among tied months the lowest
ordinal month is the one selected (first occurrence under the ascending
month scan of the grouped frame). -/
theorem claim3_top_month (df : List DailyRecord) (y : Int)
    (hy : y ∈ (comfortable df).map DailyRecord.year) :
    ∃ m c, (y, monthName m, m, c) ∈ topMonths df ∧
      c = countYM (comfortable df) y m ∧
      m ∈ monthsOfYear (comfortable df) y ∧
      (∀ m' ∈ monthsOfYear (comfortable df) y, countYM (comfortable df) y m' ≤ c) ∧
      (∀ m' ∈ monthsOfYear (comfortable df) y,
        countYM (comfortable df) y m' = c → m ≤ m') := by
  have hys : y ∈ sortedYears (comfortable df) := mem_sortedYears.mpr hy
  obtain ⟨r, hr, hry⟩ := List.mem_map.mp hy
  have hrin : r ∈ inYear (comfortable df) y :=
    List.mem_filter.mpr ⟨hr, by simp [hry]⟩
  have hmonth : r.month ∈ monthsOfYear (comfortable df) y :=
    mem_sortedMonths.mpr (List.mem_map.mpr ⟨r, hrin, rfl⟩)
  have hsorted : ((monthsOfYear (comfortable df) y).map
      (fun m => (m, countYM (comfortable df) y m))).Sorted (fun a b => a.1 < b.1) :=
    (List.pairwise_map).mpr (sorted_lt_sortedMonths _)
  have hne : ((monthsOfYear (comfortable df) y).map
      (fun m => (m, countYM (comfortable df) y m))) ≠ [] := by
    simp only [ne_eq, List.map_eq_nil_iff]
    exact List.ne_nil_of_mem hmonth
  obtain ⟨p, heq, hmem, hmax, htie⟩ := idxmaxRow_spec _ hsorted hne
  obtain ⟨m, hm, hpm⟩ := List.mem_map.mp hmem
  cases hpm
  refine ⟨m, countYM (comfortable df) y m, ?_, rfl, hm, ?_, ?_⟩
  · unfold topMonths
    refine List.mem_filterMap.mpr ⟨y, hys, ?_⟩
    rw [heq]
    rfl
  · intro m' hm'
    exact hmax (m', countYM (comfortable df) y m') (List.mem_map.mpr ⟨m', hm', rfl⟩)
  · intro m' hm' hceq
    exact htie (m', countYM (comfortable df) y m') (List.mem_map.mpr ⟨m', hm', rfl⟩) hceq

/-- Witness for C3 at the dataset with a tie between months 1 and 3:
the theorem applies and the selected month is well defined. -/
theorem claim3_top_month_witness :
    ((2000 : Int) ∈ (comfortable exTwoMonths).map DailyRecord.year) ∧
    ∃ m c, ((2000 : Int), monthName m, m, c) ∈ topMonths exTwoMonths ∧
      c = countYM (comfortable exTwoMonths) 2000 m ∧
      m ∈ monthsOfYear (comfortable exTwoMonths) 2000 ∧
      (∀ m' ∈ monthsOfYear (comfortable exTwoMonths) 2000,
        countYM (comfortable exTwoMonths) 2000 m' ≤ c) ∧
      (∀ m' ∈ monthsOfYear (comfortable exTwoMonths) 2000,
        countYM (comfortable exTwoMonths) 2000 m' = c → m ≤ m') :=
  ⟨by with_unfolding_all decide,
   claim3_top_month exTwoMonths 2000 (by with_unfolding_all decide)⟩

/-- C4 (as stated) is false on the code: in `exTwoMonths` every daily
record lies in months 1 and 3, so the pivoted matrix has no column for
month 2 at all—`pivot` only creates columns for months present in the
grouped rows, and `fillna(0)` cannot create cells.  Year 2000 is present
in the data and 2 is a month ordinal in 1–12, yet the matrix has no
(2000, 2) cell. -/
theorem claim4_counterexample :
    ((2000 : Int) ∈ exTwoMonths.map DailyRecord.year) ∧
    1 ≤ 2 ∧ 2 ≤ 12 ∧
    getCell (heatmapData exTwoMonths) 2000 2 = none := by
  with_unfolding_all decide

/-- C4 (amended): the pivoted matrix has a cell for every year that has a
comfortable day and every month that has a comfortable day in some year,
and such a cell always reads the exact count—in particular 0 when that
(year, month) combination has no comfortable day and hence no row in the
grouped monthly frame. -/
theorem claim4_dense_matrix (df : List DailyRecord) (y : Int) (m : Nat)
    (hy : y ∈ (comfortable df).map DailyRecord.year)
    (hm : m ∈ (comfortable df).map DailyRecord.month) :
    getCell (heatmapData df) y m = some (countYM (comfortable df) y m) := by
  unfold heatmapData
  rw [getCell_find_some
    (find?_keyed _ _ _ (nodup_sortedYears _) (mem_sortedYears.mpr hy)) m]
  rw [find?_keyed _ _ _ (nodup_sortedMonths _) (mem_sortedMonths.mpr hm)]
  rfl

/-- Witness for the amended C4: in `exTwoMonths` the (2000, 3) cell reads
the count 1, and a zero-filled cell appears for no-comfort combinations
of present years and months. -/
theorem claim4_dense_matrix_witness :
    ((2000 : Int) ∈ (comfortable exTwoMonths).map DailyRecord.year) ∧
    (3 ∈ (comfortable exTwoMonths).map DailyRecord.month) ∧
    getCell (heatmapData exTwoMonths) 2000 3
      = some (countYM (comfortable exTwoMonths) 2000 3) :=
  ⟨by with_unfolding_all decide, by with_unfolding_all decide,
   claim4_dense_matrix exTwoMonths 2000 3 (by with_unfolding_all decide)
     (by with_unfolding_all decide)⟩

/-- C5 (as stated) is false on the code: for the single-record dataset
`exSingle` the sample standard deviation of year 2000 is NaN
(`sampleVar` = `none`), but the final `yearly` table holds 0 there,
because the frame-wide `fillna(0)` at line 71 replaces the NaN before the
table is finished.  (The variance—std squared—is compared, which preserves
both NaN-ness and zero-ness.) -/
theorem claim5_counterexample :
    ¬ ∀ r ∈ yearly exSingle, r.temp_var = sampleVar (yearTemps exSingle r.year) := by
  with_unfolding_all decide

/-- C5 (amended): for every row of the final yearly table, the standard
deviation cell is the sample standard deviation of the daily
temperatures of that year whenever the year has at least two records (stated on the
squares, which determine the standard deviation), but for a year with
exactly one record the NaN is replaced by 0 by the frame-wide
`fillna(0)`—it does not survive to the final table. -/
theorem claim5_std_fillna (df : List DailyRecord) (r : YearlyRow)
    (hr : r ∈ yearly df) :
    (2 ≤ (yearTemps df r.year).length →
      r.temp_var = sampleVar (yearTemps df r.year)) ∧
    ((yearTemps df r.year).length = 1 → r.temp_var = some 0) := by
  obtain ⟨y, hy, rfl⟩ := mem_yearly hr
  constructor
  · intro h2
    have h2' : 2 ≤ (yearTemps df y).length := h2
    show some ((sampleVar (yearTemps df y)).getD 0) = sampleVar (yearTemps df y)
    unfold sampleVar
    rw [if_neg (by omega)]
    rfl
  · intro h1
    have h1' : (yearTemps df y).length = 1 := h1
    show some ((sampleVar (yearTemps df y)).getD 0) = some 0
    unfold sampleVar
    rw [if_pos (by omega)]
    rfl

/-- Witness for the amended C5: in the scenario dataset the year has
three records and the cell is the true sample variance; in the
single-record dataset the cell is 0. -/
theorem claim5_std_fillna_witness :
    (exRowScenario ∈ yearly exScenario) ∧
    (2 ≤ (yearTemps exScenario exRowScenario.year).length) ∧
    exRowScenario.temp_var = sampleVar (yearTemps exScenario exRowScenario.year) :=
  ⟨by with_unfolding_all decide, by with_unfolding_all decide,
   (claim5_std_fillna exScenario exRowScenario (by with_unfolding_all decide)).1
     (by with_unfolding_all decide)⟩

/-- C6 (as stated) is false on the code: year 2001 of `exNoComfort` has
no comfortable day, so the summary left join finds no `top_months` row
for it—but the joined day count is then NaN (`none`), not zero, because
no `fillna` follows this merge. -/
theorem claim6_counterexample :
    ¬ ∀ r ∈ summaryTable exNoComfort,
        countYear (comfortable exNoComfort) r.year = 0 → r.monthly_days = some 0 := by
  with_unfolding_all decide

/-- C6 (amended): the summary table is the left join of the yearly
aggregate with the per-year top-month rows on year (same years, in
order), and a year with zero comfortable days gets a row whose month name
and day count are both null (`none`)—representable, not an error. -/
theorem claim6_summary_join (df : List DailyRecord) :
    (summaryTable df).map SummaryRow.year = (yearly df).map YearlyRow.year ∧
    ∀ r ∈ summaryTable df, countYear (comfortable df) r.year = 0 →
      r.month_name = none ∧ r.monthly_days = none := by
  constructor
  · unfold summaryTable
    rw [List.map_map]
    rfl
  · intro r hr h0
    unfold summaryTable at hr
    obtain ⟨q, hq, rfl⟩ := List.mem_map.mp hr
    have h0' : countYear (comfortable df) q.year = 0 := h0
    have hq_not : q.year ∉ sortedYears (comfortable df) := by
      intro hmem
      have := countYear_pos (mem_sortedYears.mp hmem)
      omega
    have hnone : lookupKey ((topMonths df).map (fun p => (p.1, p.2))) q.year = none := by
      unfold lookupKey
      rw [Option.map_eq_none', List.find?_eq_none]
      intro p hp
      obtain ⟨t, ht, rfl⟩ := List.mem_map.mp hp
      simp only [beq_iff_eq]
      intro hcontra
      exact hq_not (hcontra ▸ topMonths_key_mem ht)
    refine ⟨?_, ?_⟩
    · show (lookupKey ((topMonths df).map (fun p => (p.1, p.2))) q.year).map
        (fun p => p.1) = none
      rw [hnone]
      rfl
    · show (lookupKey ((topMonths df).map (fun p => (p.1, p.2))) q.year).map
        (fun p => p.2.2) = none
      rw [hnone]
      rfl

/-- Witness for the amended C6 at `exNoComfort`: the joined row of year
2001 carries null month name and null day count. -/
theorem claim6_summary_join_witness :
    ((summaryTable exNoComfort).map SummaryRow.year
        = (yearly exNoComfort).map YearlyRow.year) ∧
    (exRow2001 ∈ summaryTable exNoComfort) ∧
    (exRow2001.month_name = none ∧ exRow2001.monthly_days = none) :=
  ⟨(claim6_summary_join exNoComfort).1,
   by with_unfolding_all decide,
   (claim6_summary_join exNoComfort).2 exRow2001
     (by with_unfolding_all decide) (by with_unfolding_all decide)⟩

/-- C8: when the normalised (trimmed, lowercased) header has no column
named exactly `temp_c`, a column containing the substring `temp` is
accepted as the temperature column (the loader renames it and succeeds);
when no column contains `temp`, the load fails with the schema error. -/
theorem claim8_temp_fallback (cols : List String)
    (hno : "temp_c" ∉ normalizeCols cols) :
    ((∃ c ∈ normalizeCols cols, containsTemp c = true) →
      ∃ out, resolveColumns cols = Except.ok out ∧ "temp_c" ∈ out) ∧
    ((∀ c ∈ normalizeCols cols, containsTemp c = false) →
      resolveColumns cols = Except.error LoadError.schemaError) := by
  have hcf : (normalizeCols cols).contains "temp_c" = false :=
    contains_eq_false_of_not_mem hno
  constructor
  · rintro ⟨c, hc, hct⟩
    have hsome : ((normalizeCols cols).find? containsTemp).isSome := by
      rw [List.find?_isSome]
      exact ⟨c, hc, hct⟩
    obtain ⟨c0, hc0⟩ := Option.isSome_iff_exists.mp hsome
    have hc0mem : c0 ∈ normalizeCols cols := List.mem_of_find?_eq_some hc0
    have hrt : renameTemp (normalizeCols cols)
        = (normalizeCols cols).map (fun c => if c == c0 then "temp_c" else c) := by
      unfold renameTemp
      rw [if_neg (by simpa using hno), hc0]
    have hmem : "temp_c" ∈ renameTemp (normalizeCols cols) := by
      rw [hrt]
      exact List.mem_map.mpr ⟨c0, hc0mem, by simp⟩
    refine ⟨renameTemp (normalizeCols cols), ?_, hmem⟩
    show (if (renameTemp (normalizeCols cols)).contains "temp_c"
        then Except.ok (renameTemp (normalizeCols cols))
        else (Except.error LoadError.schemaError : Except LoadError (List String)))
      = Except.ok (renameTemp (normalizeCols cols))
    rw [if_pos (by simpa using hmem)]
  · intro hall
    have hfind : (normalizeCols cols).find? containsTemp = none := by
      rw [List.find?_eq_none]
      intro c hc
      simp [hall c hc]
    have hrt : renameTemp (normalizeCols cols) = normalizeCols cols := by
      unfold renameTemp
      rw [if_neg (by simpa using hno), hfind]
    show (if (renameTemp (normalizeCols cols)).contains "temp_c"
        then Except.ok (renameTemp (normalizeCols cols))
        else (Except.error LoadError.schemaError : Except LoadError (List String)))
      = Except.error LoadError.schemaError
    rw [hrt, if_neg (by simpa using hno)]

/-- Witness for C8: the header `[" Temp_F ", "date"]` has no exact
`temp_c` but a `temp`-containing column, and the loader accepts it; the
header `["date", "humidity"]` has none and the loader fails. -/
theorem claim8_temp_fallback_witness :
    ("temp_c" ∉ normalizeCols [" Temp_F ", "date"]) ∧
    (∃ out, resolveColumns [" Temp_F ", "date"] = Except.ok out ∧ "temp_c" ∈ out) ∧
    ("temp_c" ∉ normalizeCols ["date", "humidity"]) ∧
    resolveColumns ["date", "humidity"] = Except.error LoadError.schemaError :=
  ⟨by with_unfolding_all decide,
   (claim8_temp_fallback [" Temp_F ", "date"] (by with_unfolding_all decide)).1
     (by with_unfolding_all decide),
   by with_unfolding_all decide,
   (claim8_temp_fallback ["date", "humidity"] (by with_unfolding_all decide)).2
     (by with_unfolding_all decide)⟩

/-- C9: if the date cell of any row is unparseable, the entire load fails with
the date-parse error before any aggregate exists, and a successful parse
keeps every row—there is no partial-success mode that skips bad rows. -/
theorem claim9_date_abort (parse : String → Option (Int × Nat)) (rows : List String) :
    ((∃ s ∈ rows, parse s = none) →
      parseAllDates parse rows = Except.error LoadError.dateParseError) ∧
    (∀ out, parseAllDates parse rows = Except.ok out → out.length = rows.length) := by
  constructor
  · rintro ⟨s, hs, hnone⟩
    unfold parseAllDates
    rw [mapM_option_none parse rows s hs hnone]
  · intro out hout
    unfold parseAllDates at hout
    cases hmm : rows.mapM parse with
    | none => rw [hmm] at hout; cases hout
    | some ds =>
      rw [hmm] at hout
      have hlen := mapM_option_length parse rows ds hmm
      injection hout with hde
      rw [← hde]
      exact hlen

/-- Witness for C9: with the concrete parser `exParse`, a row list
containing the bad cell aborts with the date-parse error, and a clean row
list keeps all its rows. -/
theorem claim9_date_abort_witness :
    (exParse "bad" = none) ∧
    parseAllDates exParse ["2000-01-01", "bad"] = Except.error LoadError.dateParseError ∧
    ∀ out, parseAllDates exParse ["2000-01-01"] = Except.ok out → out.length = 1 :=
  ⟨by decide,
   (claim9_date_abort exParse ["2000-01-01", "bad"]).1 ⟨"bad", by decide, by decide⟩,
   (claim9_date_abort exParse ["2000-01-01"]).2⟩

/-- C10 (as stated) is false on the code: with the (normalised) header
`["temp", "temp"]`—for instance raw CSV headers `Temp,TEMP`—the loop
picks the first matching column, but `df.rename` then renames **every**
column bearing that name, so the later matching column does not stay
unchanged. -/
theorem claim10_counterexample :
    ("temp_c" ∉ (["temp", "temp"] : List String)) ∧
    (∀ c ∈ (["temp", "temp"] : List String), containsTemp c = true) ∧
    renameTemp ["temp", "temp"] = ["temp_c", "temp_c"] := by
  decide

/-- C10 (amended): when no `temp_c` column exists, the first column (in
header order) containing `temp` is renamed to `temp_c`, together with any
later column bearing the identical name; every other column—in
particular any later `temp`-containing column with a different name—is
left unchanged (its multiplicity in the header is preserved). -/
theorem claim10_first_match (cols : List String) (c0 : String)
    (hno : "temp_c" ∉ cols)
    (hfind : cols.find? containsTemp = some c0) :
    containsTemp c0 = true ∧ c0 ∈ cols ∧
    renameTemp cols = cols.map (fun c => if c == c0 then "temp_c" else c) ∧
    ∀ c ∈ cols, c ≠ c0 →
      (cols.map (fun x => if x == c0 then "temp_c" else x)).count c = cols.count c := by
  refine ⟨List.find?_some hfind, List.mem_of_find?_eq_some hfind, ?_, ?_⟩
  · unfold renameTemp
    rw [if_neg (by simpa using hno), hfind]
  · intro c hc hne
    have hct : c ≠ "temp_c" := fun h => hno (h ▸ hc)
    rw [List.count_eq_countP, List.count_eq_countP, List.countP_map]
    refine countP_congr_mem ?_
    intro a _
    by_cases ha : a = c0
    · have h1 : ("temp_c" == c) = false := beq_eq_false_iff_ne.mpr (fun h => hct h.symm)
      have h2 : (a == c) = false := beq_eq_false_iff_ne.mpr (fun h => hne (h.symm.trans ha))
      have h3 : ¬c0 = c := fun h => hne h.symm
      simp [ha, h1, h2, h3]
    · simp [Function.comp_apply, ha]

/-- Witness for the amended C10: in the header
`["temp_f", "temperature"]` both columns contain `temp`; only the first
is renamed and the second keeps its name. -/
theorem claim10_first_match_witness :
    ("temp_c" ∉ (["temp_f", "temperature"] : List String)) ∧
    ((["temp_f", "temperature"] : List String).find? containsTemp = some "temp_f") ∧
    (containsTemp "temp_f" = true ∧
      "temp_f" ∈ (["temp_f", "temperature"] : List String) ∧
      renameTemp ["temp_f", "temperature"]
        = (["temp_f", "temperature"] : List String).map
            (fun c => if c == "temp_f" then "temp_c" else c) ∧
      ∀ c ∈ (["temp_f", "temperature"] : List String), c ≠ "temp_f" →
        ((["temp_f", "temperature"] : List String).map
            (fun x => if x == "temp_f" then "temp_c" else x)).count c
          = (["temp_f", "temperature"] : List String).count c) :=
  ⟨by decide, by decide,
   claim10_first_match ["temp_f", "temperature"] "temp_f" (by decide) (by decide)⟩

end SemesterProject
